import Mathlib

/-!
# Verification of the outdoor-ai parametric pool geometry core

Shallow embedding of the procedural pool-geometry generator and scene tables of
the repository (src/components/EnhancedPool.js, src/pages/index.js,
src/unnamed/part_000).  Numbers are modelled as exact rationals.

The geometry builder `generatePoolGeometry` (EnhancedPool.js, lines 73-143)
returns either a `THREE.BoxGeometry(w, h, d)` or a
`THREE.ExtrudeGeometry(shape, {depth, bevelEnabled: false, steps: 1})` built
from a `THREE.Shape` path of `moveTo` / `lineTo` / `bezierCurveTo` commands.
We embed the returned value as a `Geometry` datum carrying exactly the
constructor arguments the source passes, and we model the solid the rendering
library produces from it:

* a box spans `[-w/2, w/2] x [-h/2, h/2] x [-d/2, d/2]` (8 corner vertices);
* an extrusion samples each cubic bezier segment of the outline at the
  library default of 12 divisions (parameters t = i/12, i = 0..12), takes
  line segment endpoints as they are, and places the resulting outline points
  on the two caps z = 0 and z = depth.

The footprint of a solid is its plan-view bounding envelope: for a box the
(x, z) extents, for an extrusion the (x, y) extents of its outline (the spec
glossary's "2D bounding envelope (length x width) of a 3D solid").
-/

namespace OutdoorPool

/-- A 2D point of a `THREE.Shape` outline. -/
structure Vec2 where
  x : ℚ
  y : ℚ
deriving DecidableEq, Repr

/-- One path command of a `THREE.Shape`, as issued by the source. -/
inductive PathCmd where
| moveTo (p : Vec2)
| lineTo (p : Vec2)
| bezierCurveTo (c1 c2 p : Vec2)
deriving DecidableEq, Repr

/-- The value returned by `generatePoolGeometry`: either
`THREE.BoxGeometry(w, h, d)` or `THREE.ExtrudeGeometry(path, {depth, ...})`. -/
inductive Geometry where
| box (w h d : ℚ)
| extrude (path : List PathCmd) (depth : ℚ)
deriving DecidableEq, Repr

/-- Lagoon outline (EnhancedPool.js lines 82-89), verbatim control points. -/
def lagoonPath (length width : ℚ) : List PathCmd :=
  [ .moveTo ⟨0, 0⟩
  , .bezierCurveTo ⟨length * 0.3, -(width * 0.2)⟩ ⟨length * 0.7, -(width * 0.2)⟩ ⟨length, 0⟩
  , .bezierCurveTo ⟨length * 1.2, width * 0.3⟩ ⟨length * 1.2, width * 0.7⟩ ⟨length, width⟩
  , .bezierCurveTo ⟨length * 0.7, width * 1.2⟩ ⟨length * 0.3, width * 1.2⟩ ⟨0, width⟩
  , .bezierCurveTo ⟨-(width * 0.2), width * 0.7⟩ ⟨-(width * 0.2), width * 0.3⟩ ⟨0, 0⟩ ]

/-- Kidney outline (EnhancedPool.js lines 101-106), verbatim control points. -/
def kidneyPath (length width : ℚ) : List PathCmd :=
  [ .moveTo ⟨0, width * 0.2⟩
  , .bezierCurveTo ⟨length * 0.6, -(width * 0.1)⟩ ⟨length * 1.4, width * 0.4⟩ ⟨length * 0.9, width * 0.8⟩
  , .bezierCurveTo ⟨length * 0.4, width * 1.1⟩ ⟨length * 0.1, width * 0.9⟩ ⟨0, width * 0.6⟩
  , .bezierCurveTo ⟨-(length * 0.1), width * 0.4⟩ ⟨0, width * 0.2⟩ ⟨0, width * 0.2⟩ ]

/-- L-shape outline (EnhancedPool.js lines 120-128), verbatim corner points. -/
def lShapedPath (length width : ℚ) : List PathCmd :=
  [ .moveTo ⟨0, 0⟩
  , .lineTo ⟨length * 0.6, 0⟩
  , .lineTo ⟨length * 0.6, width * 0.4⟩
  , .lineTo ⟨length, width * 0.4⟩
  , .lineTo ⟨length, width⟩
  , .lineTo ⟨0, width⟩
  , .lineTo ⟨0, 0⟩ ]

/-- `generatePoolGeometry(shape, size)` of EnhancedPool.js lines 73-143.
The source destructures `const [length, width, depth] = size` and switches on
the shape string; the default case duplicates the rectangle case. -/
def generatePoolGeometry (shape : String) (size : ℚ × ℚ × ℚ) : Geometry :=
  let length := size.1
  let width := size.2.1
  let depth := size.2.2
  if shape = "rectangle" then .box length depth width
  else if shape = "lagoon" then .extrude (lagoonPath length width) depth
  else if shape = "kidney" then .extrude (kidneyPath length width) depth
  else if shape = "infinity" then .box length depth width
  else if shape = "lShaped" then .extrude (lShapedPath length width) depth
  else if shape = "lap" then .box (length * 1.8) depth (width * 0.6)
  else .box length depth width

/-- Cubic Bernstein bezier evaluated at parameter `t` (one coordinate). -/
def bez1 (a c1 c2 b t : ℚ) : ℚ :=
  (1 - t) ^ 3 * a + 3 * (1 - t) ^ 2 * t * c1 + 3 * (1 - t) * t ^ 2 * c2 + t ^ 3 * b

/-- Cubic bezier point at parameter `t`. -/
def bezPoint (p0 c1 c2 p1 : Vec2) (t : ℚ) : Vec2 :=
  ⟨bez1 p0.x c1.x c2.x p1.x t, bez1 p0.y c1.y c2.y p1.y t⟩

/-- The 13 sample points of a cubic bezier segment at the rendering library's
default of 12 curve divisions (t = i/12 for i = 0..12). -/
def sampleBezier (p0 c1 c2 p1 : Vec2) : List Vec2 :=
  (List.range 13).map fun (i : ℕ) => bezPoint p0 c1 c2 p1 ((i : ℚ) / 12)

/-- Outline points of a path, tracking the current pen position. -/
def pathPointsAux : Vec2 → List PathCmd → List Vec2
| _, [] => []
| _, .moveTo p :: rest => p :: pathPointsAux p rest
| _, .lineTo p :: rest => p :: pathPointsAux p rest
| cur, .bezierCurveTo c1 c2 p :: rest => sampleBezier cur c1 c2 p ++ pathPointsAux p rest

/-- Outline points of a `THREE.Shape` path (pen starts at the origin). -/
def pathPoints (cmds : List PathCmd) : List Vec2 := pathPointsAux ⟨0, 0⟩ cmds

/-- The endpoint a path command leaves the pen at. -/
def endpointOf : PathCmd → Vec2
| .moveTo p => p
| .lineTo p => p
| .bezierCurveTo _ _ p => p

/-- Starting point of a path (its first command's target). -/
def pathStart (cmds : List PathCmd) : Option Vec2 := cmds.head?.map endpointOf

/-- Final point of a path (its last command's target). -/
def pathFinish (cmds : List PathCmd) : Option Vec2 := cmds.getLast?.map endpointOf

/-- A solid is closed (watertight) when it is a box, or an extrusion of an
outline that returns to its starting point (side walls plus the two caps then
bound the swept region). -/
def Geometry.isClosed : Geometry → Prop
| .box _ _ _ => True
| .extrude path _ => pathStart path = pathFinish path

/-- The distinct vertex positions of the modelled solid: the 8 corners of a
box, or the sampled outline placed on both caps of an extrusion. -/
def Geometry.sampledVertices : Geometry → List (ℚ × ℚ × ℚ)
| .box w h d =>
    [ (w / 2, h / 2, d / 2), (w / 2, h / 2, -(d / 2))
    , (w / 2, -(h / 2), d / 2), (w / 2, -(h / 2), -(d / 2))
    , (-(w / 2), h / 2, d / 2), (-(w / 2), h / 2, -(d / 2))
    , (-(w / 2), -(h / 2), d / 2), (-(w / 2), -(h / 2), -(d / 2)) ]
| .extrude path dep =>
    (pathPoints path).map (fun p => (p.x, p.y, 0)) ++
      (pathPoints path).map (fun p => (p.x, p.y, dep))

/-- Number of modelled vertices of a solid. -/
def Geometry.vertexCount (g : Geometry) : ℕ := g.sampledVertices.length

/-- Executable maximum of two rationals. -/
def qmax (a b : ℚ) : ℚ := if a ≤ b then b else a

/-- Executable minimum of two rationals. -/
def qmin (a b : ℚ) : ℚ := if a ≤ b then a else b

/-- Bounding-extent of a point list in each planar axis (0 for an empty list). -/
def bboxExtent : List Vec2 → ℚ × ℚ
| [] => (0, 0)
| p :: ps =>
    ((ps.map Vec2.x).foldl qmax p.x - (ps.map Vec2.x).foldl qmin p.x,
     (ps.map Vec2.y).foldl qmax p.y - (ps.map Vec2.y).foldl qmin p.y)

/-- Plan-view bounding footprint of a solid: a box `BoxGeometry(w, h, d)`
spans `w` by `d` on the ground plane; an extrusion's footprint is the
bounding extent of its outline. -/
def Geometry.footprint : Geometry → ℚ × ℚ
| .box w _ d => (w, d)
| .extrude path _ => bboxExtent (pathPoints path)

/-- The supported shape identifiers, in source order. -/
def supportedShapes : List String :=
  ["rectangle", "lagoon", "kidney", "infinity", "lShaped", "lap"]

/-- Per-shape footprint envelope actually honoured by the builder, as a
function of the requested plan dimensions: the boxes scale by their exact
multipliers, while the sampled bezier outlines stay inside these fitted
bounds (the lagoon's x-extent mixes the two dimensions because its last
bezier segment's control points are expressed in widths). -/
def shapeEnvelope (shape : String) (length width : ℚ) : ℚ × ℚ :=
  if shape = "lagoon" then (23 / 20 * length + 3 / 20 * width, 13 / 10 * width)
  else if shape = "kidney" then (3 / 2 * length, 6 / 5 * width)
  else if shape = "lap" then (9 / 5 * length, 3 / 5 * width)
  else (length, width)

/-- Result of a JavaScript bracket lookup `obj[key]` on an object literal:
an own data property, a member inherited from `Object.prototype` (a truthy
function or object), or `undefined`. -/
inductive JsValue (α : Type) where
| own (a : α)
| inherited
| undef
deriving DecidableEq, Repr

/-- The member names every plain object literal inherits from
`Object.prototype`, so that `obj[key]` yields a truthy function (or, for
`__proto__`, the prototype object) rather than `undefined`. -/
def objectProtoKeys : List String :=
  ["constructor", "hasOwnProperty", "isPrototypeOf", "propertyIsEnumerable",
   "toLocaleString", "toString", "valueOf",
   "__defineGetter__", "__defineSetter__", "__lookupGetter__",
   "__lookupSetter__", "__proto__"]

/-- JavaScript bracket lookup on an object literal whose own properties are
given by `table`: an own property wins, otherwise the prototype chain is
consulted, otherwise the result is `undefined`. -/
def jsLookup {α : Type} (table : String → Option α) (key : String) : JsValue α :=
  match table key with
  | some a => JsValue.own a
  | none => if key ∈ objectProtoKeys then JsValue.inherited else JsValue.undef

/-- The `x || y` fallback as the source uses it: every value stored in these
tables is truthy (records and non-empty strings), and the inherited
`Object.prototype` members are truthy functions/objects, so `||` falls back
exactly when the lookup is `undefined`. -/
def jsOr {α : Type} (v fallback : JsValue α) : JsValue α :=
  match v with
  | JsValue.undef => fallback
  | x => x

/-- A pool finish record of the `POOL_FINISHES` table (EnhancedPool.js 8-59). -/
structure Finish where
  name : String
  shell : String
  roughness : ℚ
  metalness : ℚ
  normalScale : ℚ
  cost : ℚ
  durability : String
  blurb : String
deriving DecidableEq, Repr

def plaster : Finish :=
  ⟨"White Plaster", "#f8fafc", 0.3, 0, 0.2, 8000, "15-20 years",
   "Classic smooth finish, easiest maintenance"⟩

def pebbleTec : Finish :=
  ⟨"Pebble Tec", "#4a7c59", 0.8, 0, 0.6, 12000, "20-25 years",
   "Natural pebble aggregate, slip-resistant"⟩

def glassTile : Finish :=
  ⟨"Glass Tile", "#1e40af", 0.1, 0.4, 0.1, 18000, "25+ years",
   "Premium glass mosaic, stunning reflections"⟩

def quartzite : Finish :=
  ⟨"Quartzite", "#6b7280", 0.4, 0.2, 0.3, 15000, "20+ years",
   "Natural stone finish, luxury appearance"⟩

def fiberglass : Finish :=
  ⟨"Fiberglass", "#0ea5e9", 0.2, 0.1, 0.1, 6000, "15-20 years",
   "Smooth gel coat, quick installation"⟩

/-- The `POOL_FINISHES` keyed table. -/
def POOL_FINISHES (key : String) : Option Finish :=
  if key = "plaster" then some plaster
  else if key = "pebbleTec" then some pebbleTec
  else if key = "glassTile" then some glassTile
  else if key = "quartzite" then some quartzite
  else if key = "fiberglass" then some fiberglass
  else none

/-- The supported finish keys, in source order. -/
def finishKeys : List String :=
  ["plaster", "pebbleTec", "glassTile", "quartzite", "fiberglass"]

/-- `POOL_FINISHES[finish] || POOL_FINISHES.plaster` (EnhancedPool.js 164):
a bracket lookup through the prototype chain, then the truthiness fallback
to the plaster record (an own dot-access). -/
def currentFinish (key : String) : JsValue Finish :=
  jsOr (jsLookup POOL_FINISHES key) (JsValue.own plaster)

/-- The `WATER_COLORS` time-of-day table (EnhancedPool.js 62-70). -/
def WATER_COLORS (key : String) : Option String :=
  if key = "sunrise" then some ("#87CEEB")
  else if key = "morning" then some ("#4169E1")
  else if key = "noon" then some ("#1e40af")
  else if key = "afternoon" then some ("#2563eb")
  else if key = "sunset" then some ("#3b82f6")
  else if key = "evening" then some ("#1e3a8a")
  else if key = "night" then some ("#0f172a")
  else none

/-- The time-of-day keys, in source order. -/
def timeOfDayKeys : List String :=
  ["sunrise", "morning", "noon", "afternoon", "sunset", "evening", "night"]

/-- `WATER_COLORS[timeOfDay] || WATER_COLORS.sunset` (EnhancedPool.js 165):
bracket lookup through the prototype chain, falling back to the sunset
color (an own dot-access). -/
def currentWaterColor (key : String) : JsValue String :=
  jsOr (jsLookup WATER_COLORS key) (JsValue.own ("#3b82f6"))

/-- One time-of-day lighting profile (index.js lines 1350-1386). -/
structure LightingProfile where
  ambientIntensity : ℚ
  ambientColor : String
  sunIntensity : ℚ
  sunColor : String
  sunPosition : ℚ × ℚ × ℚ
  environment : String
deriving DecidableEq, Repr

def sunriseLighting : LightingProfile :=
  ⟨0.3, "#FFE4B5", 1.2, "#FFB347", (50, 15, 30), "dawn"⟩

def morningLighting : LightingProfile :=
  ⟨0.4, "#F0F8FF", 1.5, "#FFFFFF", (30, 25, 20), "city"⟩

def noonLighting : LightingProfile :=
  ⟨0.5, "#FFFFFF", 2.0, "#FFFFFF", (0, 50, 0), "warehouse"⟩

def afternoonLighting : LightingProfile :=
  ⟨0.4, "#FFF8DC", 1.6, "#FFD700", (-20, 30, 15), "park"⟩

def sunsetLighting : LightingProfile :=
  ⟨0.3, "#FF6347", 1.0, "#FF4500", (-40, 10, 20), "sunset"⟩

def eveningLighting : LightingProfile :=
  ⟨0.2, "#4169E1", 0.3, "#191970", (-50, 5, 30), "night"⟩

def nightLighting : LightingProfile :=
  ⟨0.1, "#191970", 0.1, "#000080", (-60, -10, 40), "night"⟩

/-- The `lightingSettings` keyed table (index.js 1350-1386). -/
def lightingSettings (key : String) : Option LightingProfile :=
  if key = "sunrise" then some sunriseLighting
  else if key = "morning" then some morningLighting
  else if key = "noon" then some noonLighting
  else if key = "afternoon" then some afternoonLighting
  else if key = "sunset" then some sunsetLighting
  else if key = "evening" then some eveningLighting
  else if key = "night" then some nightLighting
  else none

/-- `lightingSettings[timeOfDay] || lightingSettings.sunset` (index.js 1388):
bracket lookup through the prototype chain, falling back to the sunset
profile (an own dot-access). -/
def currentLighting (key : String) : JsValue LightingProfile :=
  jsOr (jsLookup lightingSettings key) (JsValue.own sunsetLighting)

/-- `getWaterDimensions` (EnhancedPool.js 174-187) as a function of the pool's
plan dimensions.  The component's `size` array is `[length, depth, width]`
(default `[24, 6, 12]`), and the source reads `size[0]` and `size[2]`, i.e.
the plan length and width. -/
def getWaterDimensions (shape : String) (length width : ℚ) : ℚ × ℚ :=
  if shape = "lagoon" then (length * 1.1, width * 1.1)
  else if shape = "kidney" then (length * 0.9, width * 0.8)
  else if shape = "lShaped" then (length * 0.8, width * 0.8)
  else if shape = "lap" then (length * 1.8, width * 0.6)
  else (length - 0.8, width - 0.8)

/-- A placed hardscape/landscape prop of the scene (index.js state). -/
structure SceneElement where
  ident : String
  category : String
  position : ℚ × ℚ × ℚ
deriving DecidableEq, Repr

/-- The volumetric dawn/dusk spotlight of `Scene` (index.js 1433-1442):
positioned at the sun, intensity 0.5, penumbra 1, sun color.  (Its aperture
is the constant `Math.PI / 6`, identical in both occurrences, and therefore
not a parameter.) -/
structure SpotBeam where
  position : ℚ × ℚ × ℚ
  intensity : ℚ
  penumbra : ℚ
  color : String
deriving DecidableEq, Repr

/-- A scene fog, `<fog args={[color, near, far]} />` (index.js 1611-1617). -/
structure SceneFog where
  color : String
  near : ℚ
  far : ℚ
deriving DecidableEq, Repr

/-- The volumetric spotlight is rendered exactly when
`timeOfDay === 'sunrise' || timeOfDay === 'sunset'` (index.js 1433); under
that guard `currentLighting` is the matching own profile, whose sun position
and color the spotlight reads. -/
def sceneSpotlight (timeOfDay : String) : Option SpotBeam :=
  if timeOfDay = "sunrise" then
    some ⟨sunriseLighting.sunPosition, 0.5, 1, sunriseLighting.sunColor⟩
  else if timeOfDay = "sunset" then
    some ⟨sunsetLighting.sunPosition, 0.5, 1, sunsetLighting.sunColor⟩
  else none

/-- The atmospheric fog is rendered exactly for `timeOfDay === 'evening'`
(color `#191970`, near 50, far 200) and `timeOfDay === 'night'`
(color `#000080`, near 30, far 150) (index.js 1611-1617). -/
def sceneFog (timeOfDay : String) : Option SceneFog :=
  if timeOfDay = "evening" then some ⟨"#191970", 50, 200⟩
  else if timeOfDay = "night" then some ⟨"#000080", 30, 150⟩
  else none

/-- The per-frame scene description assembled by the `Scene` component and the
`EnhancedPool` component: pool solid, water plane size and color, finish
record, active lighting profile, the time-of-day-conditional volumetric
spotlight and fog, and the pass-through list of placed props. -/
structure PoolSceneView where
  poolGeometry : Geometry
  waterDims : ℚ × ℚ
  waterColor : JsValue String
  finishRecord : JsValue Finish
  lighting : JsValue LightingProfile
  spotlight : Option SpotBeam
  fog : Option SceneFog
  elements : List SceneElement
deriving DecidableEq, Repr

/-- Scene composition (index.js `Scene` + EnhancedPool.js render):
geometry from `generatePoolGeometry(shape, size)` memoised on `[shape, size]`,
water size from `getWaterDimensions`, water color from `WATER_COLORS`,
finish from `POOL_FINISHES`, lights from `lightingSettings`, the
time-of-day-conditional volumetric spotlight (index.js 1433-1442) and fog
(index.js 1611-1617), and the list of placed elements rendered at their
stored positions. -/
def composeScene (shape finish : String) (size : ℚ × ℚ × ℚ)
    (length width : ℚ) (elements : List SceneElement) (timeOfDay : String) :
    PoolSceneView :=
  { poolGeometry := generatePoolGeometry shape size
    waterDims := getWaterDimensions shape length width
    waterColor := currentWaterColor timeOfDay
    finishRecord := currentFinish finish
    lighting := currentLighting timeOfDay
    spotlight := sceneSpotlight timeOfDay
    fog := sceneFog timeOfDay
    elements := elements }

/-- One stage of the simulated photo-processing pipeline
(`handleProcessPhotos`, index.js 2307-2318). -/
structure Stage where
  progress : ℕ
  label : String
  delay : ℕ
deriving DecidableEq, Repr

/-- The scripted stages, verbatim from index.js 2307-2318.  The processing
loop walks this list in order, setting the progress percentage of each
stage before sleeping for its delay. -/
def stages : List Stage :=
  [ ⟨5, "Validating property address...", 800⟩
  , ⟨12, "Analyzing photos for depth estimation...", 1200⟩
  , ⟨25, "Detecting scale reference objects (doors, windows)...", 1500⟩
  , ⟨40, "Running photogrammetry reconstruction...", 2000⟩
  , ⟨55, "Retrieving local building codes...", 1200⟩
  , ⟨65, "Checking utility line locations...", 1000⟩
  , ⟨75, "Analyzing property records...", 1200⟩
  , ⟨85, "Calculating regional pricing...", 1000⟩
  , ⟨95, "Generating 3D scene with physics...", 1500⟩
  , ⟨100, "Finalizing photorealistic rendering...", 1000⟩ ]

/-- The sequence of progress percentages `setProgress` receives. -/
def progressSequence : List ℕ := stages.map Stage.progress

/-- Even-odd ray-crossing test of one polygon edge (the classical
point-in-polygon crossing rule, with exact rational arithmetic). -/
def edgeCrosses (p a b : Vec2) : Bool :=
  (decide (a.y > p.y) != decide (b.y > p.y)) &&
    decide (p.x < (b.x - a.x) * (p.y - a.y) / (b.y - a.y) + a.x)

/-- Crossing parity over the consecutive edges of a vertex list. -/
def evenOddAux (p : Vec2) : List Vec2 → Bool
| a :: b :: rest => xor (edgeCrosses p a b) (evenOddAux p (b :: rest))
| _ => false

/-- Even-odd membership of a point in the region enclosed by a closed vertex
list (the filled region a closed outline is triangulated into; the outlines
produced by the source repeat their starting vertex, closing the loop). -/
def inPolygon (vs : List Vec2) (p : Vec2) : Bool := evenOddAux p vs

/-- An axis-aligned rectangle, as corner coordinates. -/
structure Rect where
  x0 : ℚ
  y0 : ℚ
  x1 : ℚ
  y1 : ℚ
deriving DecidableEq, Repr

/-- Half-open membership in a rectangle (the convention under which the
even-odd test decomposes a rectilinear region into disjoint cells). -/
def Rect.memHO (r : Rect) (p : Vec2) : Prop :=
  r.x0 ≤ p.x ∧ p.x < r.x1 ∧ r.y0 ≤ p.y ∧ p.y < r.y1

instance (r : Rect) (p : Vec2) : Decidable (r.memHO p) := by
  unfold Rect.memHO; infer_instance

/-- The main sub-prism of the L footprint: `[0, 0.6 length] x [0, width]`. -/
def lSubRect1 (length width : ℚ) : Rect := ⟨0, 0, length * 0.6, width⟩

/-- The second sub-prism of the L footprint:
`[0.6 length, length] x [0.4 width, width]`. -/
def lSubRect2 (length width : ℚ) : Rect := ⟨length * 0.6, width * 0.4, length, width⟩

/-! ## Order facts for the executable extrema -/

theorem le_qmax_left (a b : ℚ) : a ≤ qmax a b := by
  unfold qmax; split
  · assumption
  · exact le_refl a

theorem le_qmax_right (a b : ℚ) : b ≤ qmax a b := by
  unfold qmax; split
  · exact le_refl b
  · linarith [lt_of_not_le (by assumption : ¬ a ≤ b)]

theorem qmax_le {a b c : ℚ} (h1 : a ≤ c) (h2 : b ≤ c) : qmax a b ≤ c := by
  unfold qmax; split <;> assumption

theorem qmin_le_left (a b : ℚ) : qmin a b ≤ a := by
  unfold qmin; split
  · exact le_refl a
  · linarith [lt_of_not_le (by assumption : ¬ a ≤ b)]

theorem qmin_le_right (a b : ℚ) : qmin a b ≤ b := by
  unfold qmin; split
  · assumption
  · exact le_refl b

theorem le_qmin {a b c : ℚ} (h1 : c ≤ a) (h2 : c ≤ b) : c ≤ qmin a b := by
  unfold qmin; split <;> assumption

theorem foldl_qmax_le {B : ℚ} :
    ∀ (xs : List ℚ) (a : ℚ), a ≤ B → (∀ x ∈ xs, x ≤ B) → xs.foldl qmax a ≤ B
| [], _, ha, _ => ha
| x :: xs, a, ha, h =>
    foldl_qmax_le xs (qmax a x) (qmax_le ha (h x (List.mem_cons_self x xs)))
      (fun y hy => h y (List.mem_cons_of_mem x hy))

theorem le_foldl_qmax_seed : ∀ (xs : List ℚ) (a : ℚ), a ≤ xs.foldl qmax a
| [], a => le_refl a
| x :: xs, a => le_trans (le_qmax_left a x) (le_foldl_qmax_seed xs (qmax a x))

theorem le_foldl_qmax_mem : ∀ (xs : List ℚ) (a x : ℚ), x ∈ xs → x ≤ xs.foldl qmax a
| [], _, _, h => absurd h (List.not_mem_nil _)
| y :: ys, a, x, h => by
    rcases List.mem_cons.mp h with rfl | h2
    · exact le_trans (le_qmax_right a x) (le_foldl_qmax_seed ys (qmax a x))
    · exact le_foldl_qmax_mem ys (qmax a y) x h2

theorem foldl_qmin_ge {A : ℚ} :
    ∀ (xs : List ℚ) (a : ℚ), A ≤ a → (∀ x ∈ xs, A ≤ x) → A ≤ xs.foldl qmin a
| [], _, ha, _ => ha
| x :: xs, a, ha, h =>
    foldl_qmin_ge xs (qmin a x) (le_qmin ha (h x (List.mem_cons_self x xs)))
      (fun y hy => h y (List.mem_cons_of_mem x hy))

theorem foldl_qmin_le_seed : ∀ (xs : List ℚ) (a : ℚ), xs.foldl qmin a ≤ a
| [], a => le_refl a
| x :: xs, a => le_trans (foldl_qmin_le_seed xs (qmin a x)) (qmin_le_left a x)

theorem foldl_qmin_le_mem : ∀ (xs : List ℚ) (a x : ℚ), x ∈ xs → xs.foldl qmin a ≤ x
| [], _, _, h => absurd h (List.not_mem_nil _)
| y :: ys, a, x, h => by
    rcases List.mem_cons.mp h with rfl | h2
    · exact le_trans (foldl_qmin_le_seed ys (qmin a x)) (qmin_le_right a x)
    · exact foldl_qmin_le_mem ys (qmin a y) x h2

/-- Extent of a projected point list is bounded by any enclosing interval. -/
theorem extent_le (f : Vec2 → ℚ) {hd : Vec2} {tl : List Vec2} {A B : ℚ}
    (h : ∀ p ∈ hd :: tl, A ≤ f p ∧ f p ≤ B) :
    (tl.map f).foldl qmax (f hd) - (tl.map f).foldl qmin (f hd) ≤ B - A := by
  have hhd := h hd (List.mem_cons_self hd tl)
  have hmax : (tl.map f).foldl qmax (f hd) ≤ B := by
    refine foldl_qmax_le _ _ hhd.2 ?_
    intro y hy
    rcases List.mem_map.mp hy with ⟨q, hq, rfl⟩
    exact (h q (List.mem_cons_of_mem hd hq)).2
  have hmin : A ≤ (tl.map f).foldl qmin (f hd) := by
    refine foldl_qmin_ge _ _ hhd.1 ?_
    intro y hy
    rcases List.mem_map.mp hy with ⟨q, hq, rfl⟩
    exact (h q (List.mem_cons_of_mem hd hq)).1
  linarith

/-- Extent of a projected point list dominates the spread of any two members. -/
theorem extent_ge (f : Vec2 → ℚ) {hd : Vec2} {tl : List Vec2} {p q : Vec2}
    (hp : p ∈ hd :: tl) (hq : q ∈ hd :: tl) :
    f p - f q ≤ (tl.map f).foldl qmax (f hd) - (tl.map f).foldl qmin (f hd) := by
  have hup : f p ≤ (tl.map f).foldl qmax (f hd) := by
    rcases List.mem_cons.mp hp with rfl | h2
    · exact le_foldl_qmax_seed _ _
    · exact le_foldl_qmax_mem _ _ _ (List.mem_map.mpr ⟨p, h2, rfl⟩)
  have hdn : (tl.map f).foldl qmin (f hd) ≤ f q := by
    rcases List.mem_cons.mp hq with rfl | h2
    · exact foldl_qmin_le_seed _ _
    · exact foldl_qmin_le_mem _ _ _ (List.mem_map.mpr ⟨q, h2, rfl⟩)
  linarith

theorem bboxExtent_fst_le {hd : Vec2} {tl : List Vec2} {A B : ℚ}
    (h : ∀ p ∈ hd :: tl, A ≤ p.x ∧ p.x ≤ B) :
    (bboxExtent (hd :: tl)).1 ≤ B - A :=
  extent_le Vec2.x h

theorem bboxExtent_snd_le {hd : Vec2} {tl : List Vec2} {A B : ℚ}
    (h : ∀ p ∈ hd :: tl, A ≤ p.y ∧ p.y ≤ B) :
    (bboxExtent (hd :: tl)).2 ≤ B - A :=
  extent_le Vec2.y h

theorem bboxExtent_fst_ge {hd : Vec2} {tl : List Vec2} {p q : Vec2}
    (hp : p ∈ hd :: tl) (hq : q ∈ hd :: tl) :
    p.x - q.x ≤ (bboxExtent (hd :: tl)).1 :=
  extent_ge Vec2.x hp hq

theorem bboxExtent_snd_ge {hd : Vec2} {tl : List Vec2} {p q : Vec2}
    (hp : p ∈ hd :: tl) (hq : q ∈ hd :: tl) :
    p.y - q.y ≤ (bboxExtent (hd :: tl)).2 :=
  extent_ge Vec2.y hp hq

/-! ## Bezier range facts

For `t` in `[0, 1]` the Bernstein weights are nonnegative and sum to one, so a
cubic stays inside the hull of its control values; for a segment whose two
control values coincide and whose endpoints coincide the curve is
`a + 3 (c - a) t (1 - t)`, whose bulge peaks at `t = 1/2`. -/

theorem bez1_hull_le {a c1 c2 b t B : ℚ} (ha : a ≤ B) (h1 : c1 ≤ B) (h2 : c2 ≤ B)
    (hb : b ≤ B) (ht0 : 0 ≤ t) (ht1 : t ≤ 1) : bez1 a c1 c2 b t ≤ B := by
  have e : B - bez1 a c1 c2 b t =
      (1 - t) ^ 3 * (B - a) + 3 * ((1 - t) ^ 2 * t) * (B - c1) +
        3 * ((1 - t) * t ^ 2) * (B - c2) + t ^ 3 * (B - b) := by
    unfold bez1; ring
  have h1t : (0 : ℚ) ≤ 1 - t := by linarith
  have k1 : (0 : ℚ) ≤ (1 - t) ^ 3 * (B - a) :=
    mul_nonneg (pow_nonneg h1t 3) (by linarith)
  have k2 : (0 : ℚ) ≤ (1 - t) ^ 2 * t * (B - c1) :=
    mul_nonneg (mul_nonneg (sq_nonneg _) ht0) (by linarith)
  have k3 : (0 : ℚ) ≤ (1 - t) * t ^ 2 * (B - c2) :=
    mul_nonneg (mul_nonneg h1t (sq_nonneg _)) (by linarith)
  have k4 : (0 : ℚ) ≤ t ^ 3 * (B - b) :=
    mul_nonneg (pow_nonneg ht0 3) (by linarith)
  nlinarith [e, k1, k2, k3, k4]

theorem bez1_hull_ge {a c1 c2 b t A : ℚ} (ha : A ≤ a) (h1 : A ≤ c1) (h2 : A ≤ c2)
    (hb : A ≤ b) (ht0 : 0 ≤ t) (ht1 : t ≤ 1) : A ≤ bez1 a c1 c2 b t := by
  have e : bez1 a c1 c2 b t - A =
      (1 - t) ^ 3 * (a - A) + 3 * ((1 - t) ^ 2 * t) * (c1 - A) +
        3 * ((1 - t) * t ^ 2) * (c2 - A) + t ^ 3 * (b - A) := by
    unfold bez1; ring
  have h1t : (0 : ℚ) ≤ 1 - t := by linarith
  have k1 : (0 : ℚ) ≤ (1 - t) ^ 3 * (a - A) :=
    mul_nonneg (pow_nonneg h1t 3) (by linarith)
  have k2 : (0 : ℚ) ≤ (1 - t) ^ 2 * t * (c1 - A) :=
    mul_nonneg (mul_nonneg (sq_nonneg _) ht0) (by linarith)
  have k3 : (0 : ℚ) ≤ (1 - t) * t ^ 2 * (c2 - A) :=
    mul_nonneg (mul_nonneg h1t (sq_nonneg _)) (by linarith)
  have k4 : (0 : ℚ) ≤ t ^ 3 * (b - A) :=
    mul_nonneg (pow_nonneg ht0 3) (by linarith)
  nlinarith [e, k1, k2, k3, k4]

theorem bez1_symm_le {a c t : ℚ} (hac : a ≤ c) :
    bez1 a c c a t ≤ a + (3 / 4) * (c - a) := by
  have e : a + (3 / 4) * (c - a) - bez1 a c c a t = 3 * (c - a) * (t - 1 / 2) ^ 2 := by
    unfold bez1; ring
  nlinarith [e, mul_nonneg (mul_nonneg (by norm_num : (0:ℚ) ≤ 3) (by linarith : (0:ℚ) ≤ c - a)) (sq_nonneg (t - 1 / 2))]

theorem bez1_symm_ge {a c t : ℚ} (hac : a ≤ c) (ht0 : 0 ≤ t) (ht1 : t ≤ 1) :
    a ≤ bez1 a c c a t := by
  have e : bez1 a c c a t - a = 3 * (c - a) * (t * (1 - t)) := by
    unfold bez1; ring
  nlinarith [e, mul_nonneg (mul_nonneg (by norm_num : (0:ℚ) ≤ 3) (by linarith : (0:ℚ) ≤ c - a)) (mul_nonneg ht0 (by linarith : (0:ℚ) ≤ 1 - t))]

theorem bez1_symm_ge' {a c t : ℚ} (hca : c ≤ a) :
    a + (3 / 4) * (c - a) ≤ bez1 a c c a t := by
  have e : bez1 a c c a t - (a + (3 / 4) * (c - a)) = 3 * (a - c) * (t - 1 / 2) ^ 2 := by
    unfold bez1; ring
  nlinarith [e, mul_nonneg (mul_nonneg (by norm_num : (0:ℚ) ≤ 3) (by linarith : (0:ℚ) ≤ a - c)) (sq_nonneg (t - 1 / 2))]

theorem bez1_symm_le' {a c t : ℚ} (hca : c ≤ a) (ht0 : 0 ≤ t) (ht1 : t ≤ 1) :
    bez1 a c c a t ≤ a := by
  have e : a - bez1 a c c a t = 3 * (a - c) * (t * (1 - t)) := by
    unfold bez1; ring
  nlinarith [e, mul_nonneg (mul_nonneg (by norm_num : (0:ℚ) ≤ 3) (by linarith : (0:ℚ) ≤ a - c)) (mul_nonneg ht0 (by linarith : (0:ℚ) ≤ 1 - t))]

/-- A sampled bezier point is the curve at some parameter in `[0, 1]`. -/
theorem sampleBezier_mem {p : Vec2} {p0 c1 c2 p1 : Vec2}
    (h : p ∈ sampleBezier p0 c1 c2 p1) :
    ∃ t : ℚ, 0 ≤ t ∧ t ≤ 1 ∧ p = bezPoint p0 c1 c2 p1 t := by
  simp only [sampleBezier, List.mem_map, List.mem_range] at h
  rcases h with ⟨i, hi, rfl⟩
  refine ⟨(i : ℚ) / 12, by positivity, ?_, rfl⟩
  rw [div_le_one (by norm_num : (0:ℚ) < 12)]
  exact_mod_cast Nat.lt_succ_iff.mp hi

/-- The sample at index `i` belongs to the sampled segment. -/
theorem mem_sampleBezier_idx (p0 c1 c2 p1 : Vec2) (i : ℕ) (h : i ∈ List.range 13) :
    bezPoint p0 c1 c2 p1 ((i : ℚ) / 12) ∈ sampleBezier p0 c1 c2 p1 := by
  unfold sampleBezier
  exact List.mem_map.mpr ⟨i, h, rfl⟩

/-! ## The lagoon outline: exact footprint -/

theorem lagoon_points_repr (l w : ℚ) :
    pathPoints (lagoonPath l w) =
      ⟨0, 0⟩ ::
        (sampleBezier ⟨0, 0⟩ ⟨l * 0.3, -(w * 0.2)⟩ ⟨l * 0.7, -(w * 0.2)⟩ ⟨l, 0⟩ ++
          (sampleBezier ⟨l, 0⟩ ⟨l * 1.2, w * 0.3⟩ ⟨l * 1.2, w * 0.7⟩ ⟨l, w⟩ ++
            (sampleBezier ⟨l, w⟩ ⟨l * 0.7, w * 1.2⟩ ⟨l * 0.3, w * 1.2⟩ ⟨0, w⟩ ++
              (sampleBezier ⟨0, w⟩ ⟨-(w * 0.2), w * 0.7⟩ ⟨-(w * 0.2), w * 0.3⟩ ⟨0, 0⟩ ++
                [])))) := rfl

theorem lagoon_points_bounds {l w : ℚ} (hl : 0 < l) (hw : 0 < w) :
    ∀ p ∈ pathPoints (lagoonPath l w),
      (-(3 / 20) * w ≤ p.x ∧ p.x ≤ 23 / 20 * l) ∧
        (-(3 / 20) * w ≤ p.y ∧ p.y ≤ 23 / 20 * w) := by
  intro p hp
  rw [lagoon_points_repr] at hp
  simp only [List.mem_cons, List.mem_append, List.not_mem_nil, or_false] at hp
  rcases hp with rfl | h1 | h2 | h3 | h4
  · constructor <;> constructor <;> dsimp <;> linarith
  · rcases sampleBezier_mem h1 with ⟨t, ht0, ht1, rfl⟩
    simp only [bezPoint]
    refine ⟨⟨?_, ?_⟩, ?_, ?_⟩
    · exact bez1_hull_ge (by linarith) (by linarith) (by linarith) (by linarith) ht0 ht1
    · exact bez1_hull_le (by linarith) (by linarith) (by linarith) (by linarith) ht0 ht1
    · have := bez1_symm_ge' (a := (0:ℚ)) (c := -(w * 0.2)) (t := t) (by linarith)
      linarith
    · have := bez1_symm_le' (a := (0:ℚ)) (c := -(w * 0.2)) (t := t) (by linarith) ht0 ht1
      linarith
  · rcases sampleBezier_mem h2 with ⟨t, ht0, ht1, rfl⟩
    simp only [bezPoint]
    refine ⟨⟨?_, ?_⟩, ?_, ?_⟩
    · have := bez1_symm_ge (a := l) (c := l * 1.2) (t := t) (by linarith) ht0 ht1
      linarith
    · have := bez1_symm_le (a := l) (c := l * 1.2) (t := t) (by linarith)
      linarith
    · exact bez1_hull_ge (by linarith) (by linarith) (by linarith) (by linarith) ht0 ht1
    · exact bez1_hull_le (by linarith) (by linarith) (by linarith) (by linarith) ht0 ht1
  · rcases sampleBezier_mem h3 with ⟨t, ht0, ht1, rfl⟩
    simp only [bezPoint]
    refine ⟨⟨?_, ?_⟩, ?_, ?_⟩
    · exact bez1_hull_ge (by linarith) (by linarith) (by linarith) (by linarith) ht0 ht1
    · exact bez1_hull_le (by linarith) (by linarith) (by linarith) (by linarith) ht0 ht1
    · have := bez1_symm_ge (a := w) (c := w * 1.2) (t := t) (by linarith) ht0 ht1
      linarith
    · have := bez1_symm_le (a := w) (c := w * 1.2) (t := t) (by linarith)
      linarith
  · rcases sampleBezier_mem h4 with ⟨t, ht0, ht1, rfl⟩
    simp only [bezPoint]
    refine ⟨⟨?_, ?_⟩, ?_, ?_⟩
    · have := bez1_symm_ge' (a := (0:ℚ)) (c := -(w * 0.2)) (t := t) (by linarith)
      linarith
    · have := bez1_symm_le' (a := (0:ℚ)) (c := -(w * 0.2)) (t := t) (by linarith) ht0 ht1
      linarith
    · exact bez1_hull_ge (by linarith) (by linarith) (by linarith) (by linarith) ht0 ht1
    · exact bez1_hull_le (by linarith) (by linarith) (by linarith) (by linarith) ht0 ht1

/-- The lagoon solid's footprint, exactly: the bezier bulges peak at the
half-parameter samples, giving extents `23/20 l + 3/20 w` by `13/10 w`. -/
theorem lagoon_footprint_eq {l w : ℚ} (hl : 0 < l) (hw : 0 < w) (d : ℚ) :
    (generatePoolGeometry "lagoon" (l, w, d)).footprint =
      (23 / 20 * l + 3 / 20 * w, 13 / 10 * w) := by
  have hfp : (generatePoolGeometry "lagoon" (l, w, d)).footprint =
      bboxExtent (pathPoints (lagoonPath l w)) := rfl
  -- the four half-parameter extreme samples
  have hmx : bezPoint ⟨l, 0⟩ ⟨l * 1.2, w * 0.3⟩ ⟨l * 1.2, w * 0.7⟩ ⟨l, w⟩ (((6:ℕ) : ℚ) / 12) ∈
      pathPoints (lagoonPath l w) := by
    rw [lagoon_points_repr]
    exact List.mem_cons_of_mem _ (List.mem_append_right _ (List.mem_append_left _
      (mem_sampleBezier_idx _ _ _ _ 6 (by decide))))
  have hnx : bezPoint ⟨0, w⟩ ⟨-(w * 0.2), w * 0.7⟩ ⟨-(w * 0.2), w * 0.3⟩ ⟨0, 0⟩ (((6:ℕ) : ℚ) / 12) ∈
      pathPoints (lagoonPath l w) := by
    rw [lagoon_points_repr]
    exact List.mem_cons_of_mem _ (List.mem_append_right _ (List.mem_append_right _
      (List.mem_append_right _ (List.mem_append_left _
        (mem_sampleBezier_idx _ _ _ _ 6 (by decide))))))
  have hmy : bezPoint ⟨l, w⟩ ⟨l * 0.7, w * 1.2⟩ ⟨l * 0.3, w * 1.2⟩ ⟨0, w⟩ (((6:ℕ) : ℚ) / 12) ∈
      pathPoints (lagoonPath l w) := by
    rw [lagoon_points_repr]
    exact List.mem_cons_of_mem _ (List.mem_append_right _ (List.mem_append_right _
      (List.mem_append_left _ (mem_sampleBezier_idx _ _ _ _ 6 (by decide)))))
  have hny : bezPoint ⟨0, 0⟩ ⟨l * 0.3, -(w * 0.2)⟩ ⟨l * 0.7, -(w * 0.2)⟩ ⟨l, 0⟩ (((6:ℕ) : ℚ) / 12) ∈
      pathPoints (lagoonPath l w) := by
    rw [lagoon_points_repr]
    exact List.mem_cons_of_mem _ (List.mem_append_left _
      (mem_sampleBezier_idx _ _ _ _ 6 (by decide)))
  have vmx : (bezPoint ⟨l, 0⟩ ⟨l * 1.2, w * 0.3⟩ ⟨l * 1.2, w * 0.7⟩ ⟨l, w⟩ (((6:ℕ) : ℚ) / 12)).x =
      23 / 20 * l := by
    simp only [bezPoint, bez1]
    push_cast
    ring
  have vnx : (bezPoint ⟨0, w⟩ ⟨-(w * 0.2), w * 0.7⟩ ⟨-(w * 0.2), w * 0.3⟩ ⟨0, 0⟩ (((6:ℕ) : ℚ) / 12)).x =
      -(3 / 20) * w := by
    simp only [bezPoint, bez1]
    push_cast
    ring
  have vmy : (bezPoint ⟨l, w⟩ ⟨l * 0.7, w * 1.2⟩ ⟨l * 0.3, w * 1.2⟩ ⟨0, w⟩ (((6:ℕ) : ℚ) / 12)).y =
      23 / 20 * w := by
    simp only [bezPoint, bez1]
    push_cast
    ring
  have vny : (bezPoint ⟨0, 0⟩ ⟨l * 0.3, -(w * 0.2)⟩ ⟨l * 0.7, -(w * 0.2)⟩ ⟨l, 0⟩ (((6:ℕ) : ℚ) / 12)).y =
      -(3 / 20) * w := by
    simp only [bezPoint, bez1]
    push_cast
    ring
  rw [lagoon_points_repr] at hfp hmx hnx hmy hny
  have hbnd : ∀ p ∈ pathPoints (lagoonPath l w),
      (-(3 / 20) * w ≤ p.x ∧ p.x ≤ 23 / 20 * l) ∧
        (-(3 / 20) * w ≤ p.y ∧ p.y ≤ 23 / 20 * w) := lagoon_points_bounds hl hw
  rw [lagoon_points_repr] at hbnd
  have hle1 : (bboxExtent (pathPoints (lagoonPath l w))).1 ≤ 23 / 20 * l + 3 / 20 * w := by
    rw [lagoon_points_repr]
    have := bboxExtent_fst_le (fun p hp => (hbnd p hp).1)
    linarith
  have hle2 : (bboxExtent (pathPoints (lagoonPath l w))).2 ≤ 13 / 10 * w := by
    rw [lagoon_points_repr]
    have := bboxExtent_snd_le (fun p hp => (hbnd p hp).2)
    linarith
  have hge1 : 23 / 20 * l + 3 / 20 * w ≤ (bboxExtent (pathPoints (lagoonPath l w))).1 := by
    rw [lagoon_points_repr]
    have := bboxExtent_fst_ge hmx hnx
    rw [vmx, vnx] at this
    linarith
  have hge2 : 13 / 10 * w ≤ (bboxExtent (pathPoints (lagoonPath l w))).2 := by
    rw [lagoon_points_repr]
    have := bboxExtent_snd_ge hmy hny
    rw [vmy, vny] at this
    linarith
  rw [lagoon_points_repr] at hle1 hle2 hge1 hge2
  refine Prod.ext ?_ ?_
  · exact le_antisymm (by rw [hfp]; exact hle1) (by rw [hfp]; exact hge1)
  · exact le_antisymm (by rw [hfp]; exact hle2) (by rw [hfp]; exact hge2)

/-! ## The kidney outline: footprint bounds -/

theorem kidney_points_repr (l w : ℚ) :
    pathPoints (kidneyPath l w) =
      ⟨0, w * 0.2⟩ ::
        (sampleBezier ⟨0, w * 0.2⟩ ⟨l * 0.6, -(w * 0.1)⟩ ⟨l * 1.4, w * 0.4⟩ ⟨l * 0.9, w * 0.8⟩ ++
          (sampleBezier ⟨l * 0.9, w * 0.8⟩ ⟨l * 0.4, w * 1.1⟩ ⟨l * 0.1, w * 0.9⟩ ⟨0, w * 0.6⟩ ++
            (sampleBezier ⟨0, w * 0.6⟩ ⟨-(l * 0.1), w * 0.4⟩ ⟨0, w * 0.2⟩ ⟨0, w * 0.2⟩ ++
              []))) := rfl

theorem kidney_points_bounds {l w : ℚ} (hl : 0 < l) (hw : 0 < w) :
    ∀ p ∈ pathPoints (kidneyPath l w),
      (-(1 / 10) * l ≤ p.x ∧ p.x ≤ 7 / 5 * l) ∧
        (-(1 / 10) * w ≤ p.y ∧ p.y ≤ 11 / 10 * w) := by
  intro p hp
  rw [kidney_points_repr] at hp
  simp only [List.mem_cons, List.mem_append, List.not_mem_nil, or_false] at hp
  rcases hp with rfl | h1 | h2 | h3
  · constructor <;> constructor <;> dsimp <;> linarith
  · rcases sampleBezier_mem h1 with ⟨t, ht0, ht1, rfl⟩
    simp only [bezPoint]
    refine ⟨⟨?_, ?_⟩, ?_, ?_⟩
    · exact bez1_hull_ge (by linarith) (by linarith) (by linarith) (by linarith) ht0 ht1
    · exact bez1_hull_le (by linarith) (by linarith) (by linarith) (by linarith) ht0 ht1
    · exact bez1_hull_ge (by linarith) (by linarith) (by linarith) (by linarith) ht0 ht1
    · exact bez1_hull_le (by linarith) (by linarith) (by linarith) (by linarith) ht0 ht1
  · rcases sampleBezier_mem h2 with ⟨t, ht0, ht1, rfl⟩
    simp only [bezPoint]
    refine ⟨⟨?_, ?_⟩, ?_, ?_⟩
    · exact bez1_hull_ge (by linarith) (by linarith) (by linarith) (by linarith) ht0 ht1
    · exact bez1_hull_le (by linarith) (by linarith) (by linarith) (by linarith) ht0 ht1
    · exact bez1_hull_ge (by linarith) (by linarith) (by linarith) (by linarith) ht0 ht1
    · exact bez1_hull_le (by linarith) (by linarith) (by linarith) (by linarith) ht0 ht1
  · rcases sampleBezier_mem h3 with ⟨t, ht0, ht1, rfl⟩
    simp only [bezPoint]
    refine ⟨⟨?_, ?_⟩, ?_, ?_⟩
    · exact bez1_hull_ge (by linarith) (by linarith) (by linarith) (by linarith) ht0 ht1
    · exact bez1_hull_le (by linarith) (by linarith) (by linarith) (by linarith) ht0 ht1
    · exact bez1_hull_ge (by linarith) (by linarith) (by linarith) (by linarith) ht0 ht1
    · exact bez1_hull_le (by linarith) (by linarith) (by linarith) (by linarith) ht0 ht1

/-- Hull bounds for the kidney footprint. -/
theorem kidney_footprint_le {l w : ℚ} (hl : 0 < l) (hw : 0 < w) (d : ℚ) :
    (generatePoolGeometry "kidney" (l, w, d)).footprint.1 ≤ 3 / 2 * l ∧
      (generatePoolGeometry "kidney" (l, w, d)).footprint.2 ≤ 6 / 5 * w := by
  have hfp : (generatePoolGeometry "kidney" (l, w, d)).footprint =
      bboxExtent (pathPoints (kidneyPath l w)) := rfl
  have hbnd := kidney_points_bounds hl hw
  rw [kidney_points_repr] at hbnd
  constructor
  · rw [hfp, kidney_points_repr]
    have := bboxExtent_fst_le (fun p hp => (hbnd p hp).1)
    linarith
  · rw [hfp, kidney_points_repr]
    have := bboxExtent_snd_le (fun p hp => (hbnd p hp).2)
    linarith

/-- Attained lower bounds for the kidney footprint: the sampled outline
spreads at least `135/128 l` in x and `128/135 w - 71/640 w` in y. -/
theorem kidney_footprint_ge {l w : ℚ} (hl : 0 < l) (hw : 0 < w) (d : ℚ) :
    135 / 128 * l ≤ (generatePoolGeometry "kidney" (l, w, d)).footprint.1 ∧
      14467 / 17280 * w ≤ (generatePoolGeometry "kidney" (l, w, d)).footprint.2 := by
  have hfp : (generatePoolGeometry "kidney" (l, w, d)).footprint =
      bboxExtent (pathPoints (kidneyPath l w)) := rfl
  have hmx : bezPoint ⟨0, w * 0.2⟩ ⟨l * 0.6, -(w * 0.1)⟩ ⟨l * 1.4, w * 0.4⟩ ⟨l * 0.9, w * 0.8⟩
      (((9:ℕ) : ℚ) / 12) ∈ pathPoints (kidneyPath l w) := by
    rw [kidney_points_repr]
    exact List.mem_cons_of_mem _ (List.mem_append_left _
      (mem_sampleBezier_idx _ _ _ _ 9 (by decide)))
  have hmy : bezPoint ⟨l * 0.9, w * 0.8⟩ ⟨l * 0.4, w * 1.1⟩ ⟨l * 0.1, w * 0.9⟩ ⟨0, w * 0.6⟩
      (((4:ℕ) : ℚ) / 12) ∈ pathPoints (kidneyPath l w) := by
    rw [kidney_points_repr]
    exact List.mem_cons_of_mem _ (List.mem_append_right _ (List.mem_append_left _
      (mem_sampleBezier_idx _ _ _ _ 4 (by decide))))
  have hny : bezPoint ⟨0, w * 0.2⟩ ⟨l * 0.6, -(w * 0.1)⟩ ⟨l * 1.4, w * 0.4⟩ ⟨l * 0.9, w * 0.8⟩
      (((3:ℕ) : ℚ) / 12) ∈ pathPoints (kidneyPath l w) := by
    rw [kidney_points_repr]
    exact List.mem_cons_of_mem _ (List.mem_append_left _
      (mem_sampleBezier_idx _ _ _ _ 3 (by decide)))
  have hhd : (⟨0, w * 0.2⟩ : Vec2) ∈ pathPoints (kidneyPath l w) := by
    rw [kidney_points_repr]
    exact List.mem_cons_self _ _
  have vmx : (bezPoint ⟨0, w * 0.2⟩ ⟨l * 0.6, -(w * 0.1)⟩ ⟨l * 1.4, w * 0.4⟩ ⟨l * 0.9, w * 0.8⟩
      (((9:ℕ) : ℚ) / 12)).x = 135 / 128 * l := by
    simp only [bezPoint, bez1]
    push_cast
    ring
  have vmy : (bezPoint ⟨l * 0.9, w * 0.8⟩ ⟨l * 0.4, w * 1.1⟩ ⟨l * 0.1, w * 0.9⟩ ⟨0, w * 0.6⟩
      (((4:ℕ) : ℚ) / 12)).y = 128 / 135 * w := by
    simp only [bezPoint, bez1]
    push_cast
    ring
  have vny : (bezPoint ⟨0, w * 0.2⟩ ⟨l * 0.6, -(w * 0.1)⟩ ⟨l * 1.4, w * 0.4⟩ ⟨l * 0.9, w * 0.8⟩
      (((3:ℕ) : ℚ) / 12)).y = 71 / 640 * w := by
    simp only [bezPoint, bez1]
    push_cast
    ring
  rw [kidney_points_repr] at hmx hmy hny hhd
  constructor
  · rw [hfp, kidney_points_repr]
    have := bboxExtent_fst_ge hmx hhd
    rw [vmx] at this
    dsimp at this
    linarith
  · rw [hfp, kidney_points_repr]
    have := bboxExtent_snd_ge hmy hny
    rw [vmy, vny] at this
    linarith

/-! ## The L-shaped outline: footprint region -/

theorem lshaped_points_repr (l w : ℚ) :
    pathPoints (lShapedPath l w) =
      [⟨0, 0⟩, ⟨l * 0.6, 0⟩, ⟨l * 0.6, w * 0.4⟩, ⟨l, w * 0.4⟩, ⟨l, w⟩, ⟨0, w⟩, ⟨0, 0⟩] := rfl

theorem lshaped_memHO (l w : ℚ) (hl : 0 < l) (hw : 0 < w) (p : Vec2) :
    inPolygon (pathPoints (lShapedPath l w)) p = true ↔
      ((lSubRect1 l w).memHO p ∨ (lSubRect2 l w).memHO p) := by
  show inPolygon [⟨0, 0⟩, ⟨l * 0.6, 0⟩, ⟨l * 0.6, w * 0.4⟩, ⟨l, w * 0.4⟩, ⟨l, w⟩, ⟨0, w⟩, ⟨0, 0⟩] p = true ↔ _
  simp only [inPolygon, evenOddAux, edgeCrosses]
  dsimp only
  have e2 : (l * 0.6 - l * 0.6) * (p.y - 0) / (w * 0.4 - 0) + l * 0.6 = l * 0.6 := by ring
  have e4 : (l - l) * (p.y - w * 0.4) / (w - w * 0.4) + l = l := by ring
  have e6 : (0 - 0) * (p.y - w) / (0 - w) + 0 = 0 := by ring
  rw [e2, e4, e6]
  simp only [Rect.memHO, lSubRect1, lSubRect2]
  rcases lt_or_le p.y 0 with hy | hy
  · rw [decide_eq_true (show (0:ℚ) > p.y from hy),
      decide_eq_true (show w * 0.4 > p.y by linarith),
      decide_eq_true (show w > p.y by linarith)]
    norm_num
    constructor <;> intros <;> linarith
  · rcases lt_or_le p.y (w * 0.4) with hy4 | hy4
    · rw [decide_eq_false (show ¬ ((0:ℚ) > p.y) by linarith),
        decide_eq_true (show w * 0.4 > p.y from hy4),
        decide_eq_true (show w > p.y by linarith)]
      rcases lt_or_le p.x 0 with hx0 | hx0
      · rw [decide_eq_true (show p.x < (0:ℚ) from hx0),
          decide_eq_true (show p.x < l * 0.6 by linarith),
          decide_eq_true (show p.x < l by linarith)]
        norm_num
        constructor <;> intros <;> linarith
      · rcases lt_or_le p.x (l * 0.6) with hx6 | hx6
        · rw [decide_eq_false (show ¬ p.x < (0:ℚ) by linarith),
            decide_eq_true (show p.x < l * 0.6 from hx6),
            decide_eq_true (show p.x < l by linarith)]
          norm_num
          exact Or.inl ⟨by linarith, by linarith, by linarith, by linarith⟩
        · rw [decide_eq_false (show ¬ p.x < (0:ℚ) by linarith),
            decide_eq_false (show ¬ p.x < l * 0.6 by linarith)]
          norm_num
          constructor <;> intros <;> linarith
    · rcases lt_or_le p.y w with hyw | hyw
      · rw [decide_eq_false (show ¬ ((0:ℚ) > p.y) by linarith),
          decide_eq_false (show ¬ (w * 0.4 > p.y) by linarith),
          decide_eq_true (show w > p.y from hyw)]
        rcases lt_or_le p.x 0 with hx0 | hx0
        · rw [decide_eq_true (show p.x < (0:ℚ) from hx0),
            decide_eq_true (show p.x < l * 0.6 by linarith),
            decide_eq_true (show p.x < l by linarith)]
          norm_num
          constructor <;> intros <;> linarith
        · rcases lt_or_le p.x l with hxl | hxl
          · rcases lt_or_le p.x (l * 0.6) with hx6 | hx6
            · rw [decide_eq_false (show ¬ p.x < (0:ℚ) by linarith),
                decide_eq_true (show p.x < l * 0.6 from hx6),
                decide_eq_true (show p.x < l from hxl)]
              norm_num
              exact Or.inl ⟨by linarith, by linarith, by linarith, by linarith⟩
            · rw [decide_eq_false (show ¬ p.x < (0:ℚ) by linarith),
                decide_eq_false (show ¬ p.x < l * 0.6 by linarith),
                decide_eq_true (show p.x < l from hxl)]
              norm_num
              exact Or.inr ⟨by linarith, by linarith, by linarith, by linarith⟩
          · rw [decide_eq_false (show ¬ p.x < (0:ℚ) by linarith),
              decide_eq_false (show ¬ p.x < l * 0.6 by linarith),
              decide_eq_false (show ¬ p.x < l by linarith)]
            norm_num
            constructor <;> intros <;> linarith
      · rw [decide_eq_false (show ¬ ((0:ℚ) > p.y) by linarith),
          decide_eq_false (show ¬ (w * 0.4 > p.y) by linarith),
          decide_eq_false (show ¬ (w > p.y) by linarith)]
        norm_num
        constructor <;> intros <;> linarith

theorem lshaped_points_bounds {l w : ℚ} (hl : 0 < l) (hw : 0 < w) :
    ∀ p ∈ pathPoints (lShapedPath l w),
      (0 ≤ p.x ∧ p.x ≤ l) ∧ (0 ≤ p.y ∧ p.y ≤ w) := by
  intro p hp
  rw [lshaped_points_repr] at hp
  simp only [List.mem_cons, List.not_mem_nil, or_false] at hp
  rcases hp with rfl | rfl | rfl | rfl | rfl | rfl | rfl <;>
    refine ⟨⟨?_, ?_⟩, ?_, ?_⟩ <;> dsimp <;> linarith

theorem lshaped_footprint_eq {l w : ℚ} (hl : 0 < l) (hw : 0 < w) (d : ℚ) :
    (generatePoolGeometry "lShaped" (l, w, d)).footprint = (l, w) := by
  have hfp : (generatePoolGeometry "lShaped" (l, w, d)).footprint =
      bboxExtent (pathPoints (lShapedPath l w)) := rfl
  have hbnd := lshaped_points_bounds hl hw
  rw [lshaped_points_repr] at hbnd
  have hm : (⟨l, w⟩ : Vec2) ∈ pathPoints (lShapedPath l w) := by
    rw [lshaped_points_repr]
    exact List.mem_cons_of_mem _ (List.mem_cons_of_mem _ (List.mem_cons_of_mem _
      (List.mem_cons_of_mem _ (List.mem_cons_self _ _))))
  have hhd : (⟨0, 0⟩ : Vec2) ∈ pathPoints (lShapedPath l w) := by
    rw [lshaped_points_repr]
    exact List.mem_cons_self _ _
  rw [lshaped_points_repr] at hm hhd
  refine Prod.ext ?_ ?_
  · refine le_antisymm ?_ ?_
    · rw [hfp, lshaped_points_repr]
      have := bboxExtent_fst_le (fun p hp => (hbnd p hp).1)
      linarith
    · rw [hfp, lshaped_points_repr]
      have := bboxExtent_fst_ge hm hhd
      dsimp at this
      linarith
  · refine le_antisymm ?_ ?_
    · rw [hfp, lshaped_points_repr]
      have := bboxExtent_snd_le (fun p hp => (hbnd p hp).2)
      linarith
    · rw [hfp, lshaped_points_repr]
      have := bboxExtent_snd_ge hm hhd
      dsimp at this
      linarith

/-! ## Vertex-count computations -/

theorem box_vertexCount (a b c : ℚ) : (Geometry.box a b c).vertexCount = 8 := rfl

theorem lagoonExt_vertexCount (l w d : ℚ) :
    (Geometry.extrude (lagoonPath l w) d).vertexCount = 106 := rfl

theorem kidneyExt_vertexCount (l w d : ℚ) :
    (Geometry.extrude (kidneyPath l w) d).vertexCount = 80 := rfl

theorem lshapedExt_vertexCount (l w d : ℚ) :
    (Geometry.extrude (lShapedPath l w) d).vertexCount = 14 := rfl

theorem rectangle_vertexCount (l w d : ℚ) :
    (generatePoolGeometry "rectangle" (l, w, d)).vertexCount = 8 := rfl

theorem lagoon_vertexCount (l w d : ℚ) :
    (generatePoolGeometry "lagoon" (l, w, d)).vertexCount = 106 := rfl

theorem kidney_vertexCount (l w d : ℚ) :
    (generatePoolGeometry "kidney" (l, w, d)).vertexCount = 80 := rfl

theorem infinity_vertexCount (l w d : ℚ) :
    (generatePoolGeometry "infinity" (l, w, d)).vertexCount = 8 := rfl

theorem lshaped_vertexCount (l w d : ℚ) :
    (generatePoolGeometry "lShaped" (l, w, d)).vertexCount = 14 := rfl

theorem lap_vertexCount (l w d : ℚ) :
    (generatePoolGeometry "lap" (l, w, d)).vertexCount = 8 := rfl

/-! ## The claims -/

/-- C1 (amended): for every supported shape identifier and every triple
(length, width, depth) with all three positive, the geometry builder returns a
non-empty, closed (watertight) solid, and its bounding-box footprint lies
within the per-shape envelope of (length, width) that the builder actually
honours: the exact box multipliers for rectangle, infinity and lap
(1, 1.8/0.6), the full requested envelope for the L-shape, at most
`23/20 length + 3/20 width` by `13/10 width` for the lagoon, and at most
`3/2 length` by `6/5 width` for the kidney.  (The lagoon exceeds its
documented 1.2x multipliers; see the counterexample.) -/
theorem generatePoolGeometry_footprint_bounds (shape : String)
    (hs : shape ∈ supportedShapes) (l w d : ℚ)
    (hl : 0 < l) (hw : 0 < w) (hd : 0 < d) :
    0 < (generatePoolGeometry shape (l, w, d)).vertexCount ∧
      (generatePoolGeometry shape (l, w, d)).isClosed ∧
      (generatePoolGeometry shape (l, w, d)).footprint.1 ≤ (shapeEnvelope shape l w).1 ∧
      (generatePoolGeometry shape (l, w, d)).footprint.2 ≤ (shapeEnvelope shape l w).2 := by
  simp only [supportedShapes, List.mem_cons, List.not_mem_nil, or_false] at hs
  rcases hs with rfl | rfl | rfl | rfl | rfl | rfl
  · exact ⟨by rw [rectangle_vertexCount]; norm_num, trivial, le_refl l, le_refl w⟩
  · refine ⟨by rw [lagoon_vertexCount]; norm_num, rfl, ?_, ?_⟩
    · rw [lagoon_footprint_eq hl hw d]
      exact le_refl _
    · rw [lagoon_footprint_eq hl hw d]
      exact le_refl _
  · exact ⟨by rw [kidney_vertexCount]; norm_num, rfl,
      (kidney_footprint_le hl hw d).1, (kidney_footprint_le hl hw d).2⟩
  · exact ⟨by rw [infinity_vertexCount]; norm_num, trivial, le_refl l, le_refl w⟩
  · refine ⟨by rw [lshaped_vertexCount]; norm_num, rfl, ?_, ?_⟩
    · rw [lshaped_footprint_eq hl hw d]
      exact le_refl _
    · rw [lshaped_footprint_eq hl hw d]
      exact le_refl _
  · exact ⟨by rw [lap_vertexCount]; norm_num, trivial,
      le_of_eq (show l * 1.8 = 9 / 5 * l by ring),
      le_of_eq (show w * 0.6 = 3 / 5 * w by ring)⟩

/-- C1 counterexample: at (length, width, depth) = (10, 10, 5) the lagoon
solid's footprint is 13 by 13, which exceeds the documented 1.2x scale
multipliers of (length, width) (both bounds would be 12). -/
theorem lagoon_exceeds_documented_multipliers :
    ¬((generatePoolGeometry "lagoon" ((10 : ℚ), 10, 5)).footprint.1 ≤ 6 / 5 * 10 ∧
      (generatePoolGeometry "lagoon" ((10 : ℚ), 10, 5)).footprint.2 ≤ 6 / 5 * 10) := by
  rw [lagoon_footprint_eq (by norm_num) (by norm_num) 5]
  norm_num

/-- C1 witness: the amended bound instantiated at the lagoon with
(24, 12, 6). -/
theorem generatePoolGeometry_footprint_bounds_witness :
    ("lagoon" ∈ supportedShapes ∧ (0 : ℚ) < 24 ∧ (0 : ℚ) < 12 ∧ (0 : ℚ) < 6) ∧
      (0 < (generatePoolGeometry "lagoon" ((24 : ℚ), 12, 6)).vertexCount ∧
        (generatePoolGeometry "lagoon" ((24 : ℚ), 12, 6)).isClosed ∧
        (generatePoolGeometry "lagoon" ((24 : ℚ), 12, 6)).footprint.1 ≤
          (shapeEnvelope "lagoon" 24 12).1 ∧
        (generatePoolGeometry "lagoon" ((24 : ℚ), 12, 6)).footprint.2 ≤
          (shapeEnvelope "lagoon" 24 12).2) :=
  ⟨⟨by decide, by norm_num, by norm_num, by norm_num⟩,
    generatePoolGeometry_footprint_bounds "lagoon" (by decide) 24 12 6
      (by norm_num) (by norm_num) (by norm_num)⟩

/-- C2: the geometry builder is deterministic and a pure function of its
inputs: two calls with identical (shape, length, width, depth) produce the
same geometry value, hence identical vertex positions, vertex count and
topology; no other state occurs in its definition. -/
theorem generatePoolGeometry_deterministic (shape1 shape2 : String)
    (sz1 sz2 : ℚ × ℚ × ℚ) (hs : shape1 = shape2) (hsz : sz1 = sz2) :
    generatePoolGeometry shape1 sz1 = generatePoolGeometry shape2 sz2 ∧
      (generatePoolGeometry shape1 sz1).sampledVertices =
        (generatePoolGeometry shape2 sz2).sampledVertices ∧
      (generatePoolGeometry shape1 sz1).vertexCount =
        (generatePoolGeometry shape2 sz2).vertexCount := by
  subst hs
  subst hsz
  exact ⟨rfl, rfl, rfl⟩

/-- C2 witness: determinism at the lagoon with (24, 12, 6). -/
theorem generatePoolGeometry_deterministic_witness :
    ("lagoon" = "lagoon" ∧ ((24 : ℚ), (12 : ℚ), (6 : ℚ)) = ((24 : ℚ), 12, 6)) ∧
      (generatePoolGeometry "lagoon" ((24 : ℚ), 12, 6) =
          generatePoolGeometry "lagoon" ((24 : ℚ), 12, 6) ∧
        (generatePoolGeometry "lagoon" ((24 : ℚ), 12, 6)).sampledVertices =
          (generatePoolGeometry "lagoon" ((24 : ℚ), 12, 6)).sampledVertices ∧
        (generatePoolGeometry "lagoon" ((24 : ℚ), 12, 6)).vertexCount =
          (generatePoolGeometry "lagoon" ((24 : ℚ), 12, 6)).vertexCount) :=
  ⟨⟨rfl, rfl⟩, generatePoolGeometry_deterministic "lagoon" "lagoon" _ _ rfl rfl⟩

/-- C3 (amended): an unknown shape identifier always produces the rectangle
geometry (the switch compares strings strictly); an unknown finish or
time-of-day key falls back to the plaster record / the sunset entries
provided the key is also not one of the twelve `Object.prototype` member
names — for those, the bracket lookup returns a truthy inherited member and
the `||` fallback does not fire (see the counterexample). -/
theorem unknown_key_defaults (shape finish tod : String) (sz : ℚ × ℚ × ℚ)
    (hs : shape ∉ supportedShapes)
    (hf : finish ∉ finishKeys) (hfp : finish ∉ objectProtoKeys)
    (ht : tod ∉ timeOfDayKeys) (htp : tod ∉ objectProtoKeys) :
    generatePoolGeometry shape sz = generatePoolGeometry "rectangle" sz ∧
      currentFinish finish = JsValue.own plaster ∧
      currentWaterColor tod = currentWaterColor "sunset" ∧
      currentLighting tod = currentLighting "sunset" := by
  simp only [supportedShapes, finishKeys, timeOfDayKeys, List.mem_cons,
    List.not_mem_nil, or_false, not_or] at hs hf ht
  obtain ⟨h1, h2, h3, h4, h5, h6⟩ := hs
  obtain ⟨f1, f2, f3, f4, f5⟩ := hf
  obtain ⟨t1, t2, t3, t4, t5, t6, t7⟩ := ht
  have hfnone : POOL_FINISHES finish = none := by
    unfold POOL_FINISHES
    rw [if_neg f1, if_neg f2, if_neg f3, if_neg f4, if_neg f5]
  have hwnone : WATER_COLORS tod = none := by
    unfold WATER_COLORS
    rw [if_neg t1, if_neg t2, if_neg t3, if_neg t4, if_neg t5, if_neg t6, if_neg t7]
  have hlnone : lightingSettings tod = none := by
    unfold lightingSettings
    rw [if_neg t1, if_neg t2, if_neg t3, if_neg t4, if_neg t5, if_neg t6, if_neg t7]
  refine ⟨?_, ?_, ?_, ?_⟩
  · unfold generatePoolGeometry
    dsimp only
    rw [if_neg h1, if_neg h2, if_neg h3, if_neg h4, if_neg h5, if_neg h6, if_pos rfl]
  · unfold currentFinish jsLookup
    rw [hfnone]
    dsimp only
    rw [if_neg hfp]
    rfl
  · unfold currentWaterColor jsLookup
    rw [hwnone]
    dsimp only
    rw [if_neg htp]
    rfl
  · unfold currentLighting jsLookup
    rw [hlnone]
    dsimp only
    rw [if_neg htp]
    rfl

/-- C3 counterexample: "toString" is outside every supported key set, yet the
bracket lookups hit the member inherited from `Object.prototype`, which is
truthy, so none of the three `||` fallbacks yields its documented default. -/
theorem prototype_key_defeats_fallback :
    ("toString" ∉ finishKeys ∧ "toString" ∉ timeOfDayKeys) ∧
      currentFinish "toString" ≠ JsValue.own plaster ∧
      currentWaterColor "toString" ≠ currentWaterColor "sunset" ∧
      currentLighting "toString" ≠ currentLighting "sunset" :=
  ⟨⟨by decide, by decide⟩, by decide, by decide, by decide⟩

/-- C3 witness: the fallbacks at the unknown keys "hexagon", "marble" and
"midnight", none of which is an `Object.prototype` member name. -/
theorem unknown_key_defaults_witness :
    ("hexagon" ∉ supportedShapes ∧ "marble" ∉ finishKeys ∧
        "marble" ∉ objectProtoKeys ∧ "midnight" ∉ timeOfDayKeys ∧
        "midnight" ∉ objectProtoKeys) ∧
      (generatePoolGeometry "hexagon" ((24 : ℚ), 12, 6) =
          generatePoolGeometry "rectangle" ((24 : ℚ), 12, 6) ∧
        currentFinish "marble" = JsValue.own plaster ∧
        currentWaterColor "midnight" = currentWaterColor "sunset" ∧
        currentLighting "midnight" = currentLighting "sunset") :=
  ⟨⟨by decide, by decide, by decide, by decide, by decide⟩,
    unknown_key_defaults "hexagon" "marble" "midnight" ((24 : ℚ), 12, 6)
      (by decide) (by decide) (by decide) (by decide) (by decide)⟩

/-- C4 (amended): for every positive (length, width, depth), the water plane
of `getWaterDimensions` is strictly smaller in each axis than the pool
solid's footprint for every supported shape except lap, and for the
rectangle the water plane is exactly (length - 0.8) by (width - 0.8); for
the lap shape the water plane's footprint instead coincides exactly with
the solid's footprint (both are 1.8 length by 0.6 width), so strictness
fails there (see the counterexample). -/
theorem water_margin_table (l w d : ℚ) (hl : 0 < l) (hw : 0 < w) (hd : 0 < d) :
    (∀ shape ∈ supportedShapes, shape ≠ "lap" →
      (getWaterDimensions shape l w).1 < (generatePoolGeometry shape (l, w, d)).footprint.1 ∧
        (getWaterDimensions shape l w).2 < (generatePoolGeometry shape (l, w, d)).footprint.2) ∧
      getWaterDimensions "rectangle" l w = (l - 0.8, w - 0.8) ∧
      getWaterDimensions "lap" l w = (generatePoolGeometry "lap" (l, w, d)).footprint := by
  refine ⟨?_, rfl, rfl⟩
  intro shape hs hne
  simp only [supportedShapes, List.mem_cons, List.not_mem_nil, or_false] at hs
  rcases hs with rfl | rfl | rfl | rfl | rfl | rfl
  · constructor
    · show l - 0.8 < l
      linarith
    · show w - 0.8 < w
      linarith
  · have he := lagoon_footprint_eq hl hw d
    constructor
    · rw [he]
      show l * 1.1 < 23 / 20 * l + 3 / 20 * w
      linarith
    · rw [he]
      show w * 1.1 < 13 / 10 * w
      linarith
  · have hg := kidney_footprint_ge hl hw d
    constructor
    · have hv : (getWaterDimensions "kidney" l w).1 = l * 0.9 := rfl
      rw [hv]
      have h1 := hg.1
      linarith
    · have hv : (getWaterDimensions "kidney" l w).2 = w * 0.8 := rfl
      rw [hv]
      have h2 := hg.2
      linarith
  · constructor
    · show l - 0.8 < l
      linarith
    · show w - 0.8 < w
      linarith
  · have he := lshaped_footprint_eq hl hw d
    constructor
    · rw [he]
      show l * 0.8 < l
      linarith
    · rw [he]
      show w * 0.8 < w
      linarith
  · exact absurd rfl hne

/-- C4 counterexample: for the lap shape at (24, 12, 6) the water plane
(43.2 by 7.2) equals the solid's footprint exactly, so it is not strictly
smaller. -/
theorem lap_water_equals_footprint :
    getWaterDimensions "lap" 24 12 = (generatePoolGeometry "lap" ((24 : ℚ), 12, 6)).footprint ∧
      ¬((getWaterDimensions "lap" 24 12).1 <
          (generatePoolGeometry "lap" ((24 : ℚ), 12, 6)).footprint.1 ∧
        (getWaterDimensions "lap" 24 12).2 <
          (generatePoolGeometry "lap" ((24 : ℚ), 12, 6)).footprint.2) := by
  refine ⟨rfl, ?_⟩
  rintro ⟨h, -⟩
  exact lt_irrefl _ h

/-- C4 witness: the strict margin at the lagoon with (24, 12, 6). -/
theorem water_margin_table_witness :
    ((0 : ℚ) < 24 ∧ (0 : ℚ) < 12 ∧ (0 : ℚ) < 6) ∧
      ((getWaterDimensions "lagoon" 24 12).1 <
          (generatePoolGeometry "lagoon" ((24 : ℚ), 12, 6)).footprint.1 ∧
        (getWaterDimensions "lagoon" 24 12).2 <
          (generatePoolGeometry "lagoon" ((24 : ℚ), 12, 6)).footprint.2) :=
  ⟨⟨by norm_num, by norm_num, by norm_num⟩,
    (water_margin_table 24 12 6 (by norm_num) (by norm_num) (by norm_num)).1
      "lagoon" (by decide) (by decide)⟩

/-- C5 (amended): for shape "lagoon" with (length, width, depth) =
(24, 12, 6) the builder returns the extruded bezier solid with 106 vertices;
its bounding footprint is exactly 29.4 by 15.6 (not within 28.8 by 14.4,
see the counterexample), and the water plane is sized 26.4 by 13.2
(1.1x length and width) as claimed. -/
theorem lagoon_example :
    generatePoolGeometry "lagoon" ((24 : ℚ), 12, 6) = Geometry.extrude (lagoonPath 24 12) 6 ∧
      0 < (generatePoolGeometry "lagoon" ((24 : ℚ), 12, 6)).vertexCount ∧
      (generatePoolGeometry "lagoon" ((24 : ℚ), 12, 6)).footprint = (147 / 5, 78 / 5) ∧
      getWaterDimensions "lagoon" 24 12 = (132 / 5, 66 / 5) := by
  refine ⟨rfl, by rw [lagoon_vertexCount]; norm_num, ?_, ?_⟩
  · rw [lagoon_footprint_eq (by norm_num) (by norm_num) 6]
    refine Prod.ext ?_ ?_ <;> norm_num
  · show ((24 : ℚ) * 1.1, (12 : ℚ) * 1.1) = (132 / 5, 66 / 5)
    refine Prod.ext ?_ ?_ <;> norm_num

/-- C5 counterexample: the lagoon footprint at (24, 12, 6) is 29.4 by 15.6,
not at most [28.8, 14.4]. -/
theorem lagoon_example_bound_fails :
    ¬((generatePoolGeometry "lagoon" ((24 : ℚ), 12, 6)).footprint.1 ≤ 144 / 5 ∧
      (generatePoolGeometry "lagoon" ((24 : ℚ), 12, 6)).footprint.2 ≤ 72 / 5) := by
  rw [lagoon_footprint_eq (by norm_num) (by norm_num) 6]
  norm_num

/-- C6: for the lShaped shape and every positive (length, width, depth), the
builder extrudes the single L outline, whose footprint region decomposes
exactly into two adjoining rectangular sub-prisms, `[0, 0.6 l] x [0, w]` and
`[0.6 l, l] x [0.4 w, w]`: they share the contiguous flush edge
`x = 0.6 l`, `0.4 w ≤ y ≤ w` (zero gap), and their half-open cells never
overlap (zero overlap). -/
theorem lshaped_flush_prisms (l w d : ℚ) (hl : 0 < l) (hw : 0 < w) (hd : 0 < d) :
    generatePoolGeometry "lShaped" (l, w, d) = Geometry.extrude (lShapedPath l w) d ∧
      (∀ p : Vec2, inPolygon (pathPoints (lShapedPath l w)) p = true ↔
        ((lSubRect1 l w).memHO p ∨ (lSubRect2 l w).memHO p)) ∧
      (lSubRect1 l w).x1 = (lSubRect2 l w).x0 ∧
      (∀ p : Vec2, ¬((lSubRect1 l w).memHO p ∧ (lSubRect2 l w).memHO p)) ∧
      (lSubRect1 l w).y0 ≤ (lSubRect2 l w).y0 ∧
      (lSubRect2 l w).y0 < (lSubRect2 l w).y1 ∧
      (lSubRect2 l w).y1 ≤ (lSubRect1 l w).y1 := by
  refine ⟨rfl, fun p => lshaped_memHO l w hl hw p, rfl, ?_, ?_, ?_, le_refl _⟩
  · intro p hmem
    simp only [Rect.memHO, lSubRect1, lSubRect2] at hmem
    obtain ⟨⟨-, h2, -, -⟩, h5, -, -, -⟩ := hmem
    linarith
  · show (0 : ℚ) ≤ w * 0.4
    linarith
  · show w * 0.4 < w
    linarith

/-- C6 witness: the L decomposition at (24, 12, 6), membership tested at the
point (20, 10). -/
theorem lshaped_flush_prisms_witness :
    ((0 : ℚ) < 24 ∧ (0 : ℚ) < 12 ∧ (0 : ℚ) < 6) ∧
      (inPolygon (pathPoints (lShapedPath 24 12)) ⟨20, 10⟩ = true ↔
        ((lSubRect1 24 12).memHO ⟨20, 10⟩ ∨ (lSubRect2 24 12).memHO ⟨20, 10⟩)) :=
  ⟨⟨by norm_num, by norm_num, by norm_num⟩,
    (lshaped_flush_prisms 24 12 6 (by norm_num) (by norm_num) (by norm_num)).2.1 ⟨20, 10⟩⟩

/-- C7: for the lap shape and every positive (length, width, depth), the
builder returns an axis-aligned rectangular prism whose length is the
requested length scaled by a factor in [1.5, 1.8] (namely 1.8), whose width
is the requested width scaled by a factor in [0.5, 0.6] (namely 0.6), and
whose height equals the requested depth. -/
theorem lap_prism_scaling (l w d : ℚ) (hl : 0 < l) (hw : 0 < w) (hd : 0 < d) :
    ∃ a b : ℚ, 3 / 2 ≤ a ∧ a ≤ 9 / 5 ∧ 1 / 2 ≤ b ∧ b ≤ 3 / 5 ∧
      generatePoolGeometry "lap" (l, w, d) = Geometry.box (a * l) d (b * w) := by
  refine ⟨9 / 5, 3 / 5, by norm_num, le_refl _, by norm_num, le_refl _, ?_⟩
  show Geometry.box (l * 1.8) d (w * 0.6) = Geometry.box (9 / 5 * l) d (3 / 5 * w)
  rw [show l * 1.8 = 9 / 5 * l by ring, show w * 0.6 = 3 / 5 * w by ring]

/-- C7 witness: the lap prism at (24, 12, 6). -/
theorem lap_prism_scaling_witness :
    ((0 : ℚ) < 24 ∧ (0 : ℚ) < 12 ∧ (0 : ℚ) < 6) ∧
      (∃ a b : ℚ, 3 / 2 ≤ a ∧ a ≤ 9 / 5 ∧ 1 / 2 ≤ b ∧ b ≤ 3 / 5 ∧
        generatePoolGeometry "lap" ((24 : ℚ), 12, 6) = Geometry.box (a * 24) 6 (b * 12)) :=
  ⟨⟨by norm_num, by norm_num, by norm_num⟩,
    lap_prism_scaling 24 12 6 (by norm_num) (by norm_num) (by norm_num)⟩

/-- C8 (amended): for a fixed pool specification and element list, changing
only the time-of-day selection changes only the lighting profile (ambient
and directional intensity, color, position, environment preset), the water
surface's base color, the presence of the volumetric dawn/dusk spotlight
(rendered for sunrise and sunset only), and the presence of the scene fog
(rendered for evening and night only): the composed scene for any second
time of day equals the first scene with just those four fields replaced, so
the pool geometry, the water plane size, the finish record, and every placed
element's geometry and position are identical. -/
theorem timeOfDay_frame (shape finish : String) (size : ℚ × ℚ × ℚ)
    (length width : ℚ) (elements : List SceneElement) (t1 t2 : String) :
    composeScene shape finish size length width elements t2 =
      { composeScene shape finish size length width elements t1 with
          waterColor := currentWaterColor t2,
          lighting := currentLighting t2,
          spotlight := sceneSpotlight t2,
          fog := sceneFog t2 } := rfl

/-- C8 counterexample: switching noon to night adds the scene fog, an effect
outside the claim's enumerated lighting-and-water-color frame, so the scene
for night is not the noon scene with only the lighting profile and water
color replaced. -/
theorem timeOfDay_changes_more_than_lighting :
    (composeScene "rectangle" "plaster" ((24 : ℚ), 6, 12) 24 12 [] "noon").fog = none ∧
      (composeScene "rectangle" "plaster" ((24 : ℚ), 6, 12) 24 12 [] "night").fog =
        some ⟨"#000080", 30, 150⟩ ∧
      composeScene "rectangle" "plaster" ((24 : ℚ), 6, 12) 24 12 [] "night" ≠
        { composeScene "rectangle" "plaster" ((24 : ℚ), 6, 12) 24 12 [] "noon" with
            waterColor := currentWaterColor "night",
            lighting := currentLighting "night" } :=
  ⟨rfl, rfl, fun h => Option.noConfusion (congrArg PoolSceneView.fog h)⟩

/-- C9: the scripted photo-processing pipeline has exactly ten stages whose
progress percentages are strictly increasing (5, 12, 25, 40, 55, 65, 75, 85,
95, 100), so the progress value never decreases, and the flow ends at 100. -/
theorem progress_strictly_increasing :
    stages.length = 10 ∧ List.Pairwise (· < ·) progressSequence ∧
      progressSequence.getLast? = some 100 :=
  ⟨by decide, by decide, by decide⟩

/-- C10: the geometry builder is total at its public interface: for every
shape string (known or unknown) and every rational (length, width, depth) --
including zero and negative values, with no validation anywhere in its body --
it returns a geometry value with a positive vertex count and never fails. -/
theorem generatePoolGeometry_total (shape : String) (l w d : ℚ) :
    0 < (generatePoolGeometry shape (l, w, d)).vertexCount := by
  unfold generatePoolGeometry
  dsimp only
  split
  · norm_num [box_vertexCount]
  split
  · norm_num [lagoonExt_vertexCount]
  split
  · norm_num [kidneyExt_vertexCount]
  split
  · norm_num [box_vertexCount]
  split
  · norm_num [lshapedExt_vertexCount]
  split
  · norm_num [box_vertexCount]
  · norm_num [box_vertexCount]

end OutdoorPool
